import Mathlib

/-!
Verification of the `CatalogAPI` client (src/modules/catalog.py) of
argo-probe-onboarding.

The module is a thin wrapper over HTTP: the constructor fetches a JSON
catalog entry, and three query methods inspect the cached entry.  We embed
it shallowly:

* JSON values become the inductive `Json`; the catalog entry (a JSON
  object) becomes `Document`, an association list from string keys to
  `Json` values.
* Exceptions become `Except PyErr`; the `PyErr` constructors keep the
  Python exception classes apart (`KeyError`, `TypeError`, `ValueError`
  and the repository exception `CriticalException`).
* The network is a parameter: the outcome that `requests.get` delivers for
  a given request is passed in as a function returning `HttpOutcome`.
  The semantics of the `requests` library that the source relies on is
  made explicit: `response.ok` is `status < 400`, and
  `raise_for_status` raises exactly for statuses in `[400, 600)`.
* `datetime.datetime.now()` (`get_today` in the source) becomes an
  explicit `today` argument of type `PyDateTime`.
* Methods are translated in explicit state-passing style,
  `CatalogAPI → args → result × CatalogAPI`, so that the absence of
  mutation of `self` is a statement about the translation rather than an
  accident of purity.
-/

/-- A JSON value, as delivered by `response.json()`.  Numbers are modelled
as integers; only zero versus non-zero matters to the code (Python
truthiness). -/
inductive Json where
  | null : Json
  | bool (b : Bool) : Json
  | str (s : String) : Json
  | num (n : Int) : Json
  | arr (elems : List Json) : Json
  | obj (fields : List (String × Json)) : Json

/-- The catalog entry: a JSON object, i.e. a finite mapping from string
keys to JSON values.  Python dictionaries have unique keys; lookup takes
the first binding. -/
abbrev Document := List (String × Json)

/-- First-match association-list lookup, the meaning of `d[key]` and
`key in d` on a Python dictionary. -/
def lookupJson : Document → String → Option Json
  | [], _ => none
  | (k, v) :: rest, key => if k = key then some v else lookupJson rest key

/-- Python truthiness (`bool(v)`) of a JSON value: false for `None`,
`False`, the empty string, zero and empty containers, true otherwise. -/
def truthy : Json → Bool
  | Json.null => false
  | Json.bool b => b
  | Json.str s => !(s == "")
  | Json.num n => !(n == 0)
  | Json.arr elems => !elems.isEmpty
  | Json.obj fields => !fields.isEmpty

/-- Whether a JSON value is a Python `bool`. -/
def Json.isBool : Json → Bool
  | Json.bool _ => true
  | _ => false

/-- The exceptions the module can raise.  `critical` is the repository
exception `CriticalException`; the others are the built-in Python
exceptions that escape unguarded lookups and parses. -/
inductive PyErr where
  | keyError (key : String) : PyErr
  | typeError (msg : String) : PyErr
  | valueError (msg : String) : PyErr
  | critical (msg : String) : PyErr
deriving DecidableEq

/-- Rendering of a JSON value inside a Python f-string, as used by the
message of `check_url_valid`.  For the string values the probe stores
(URLs, dates) this is the string itself; the rendering of the remaining
shapes is abbreviated, no claim depends on it. -/
def pyStr : Json → String
  | Json.null => "None"
  | Json.bool true => "True"
  | Json.bool false => "False"
  | Json.str s => s
  | Json.num n => toString n
  | Json.arr _ => "<list>"
  | Json.obj _ => "<dict>"

/-- `self.data` after construction is either the parsed JSON object or the
Python `None` that `_get_data` returns when it falls off the end of the
`try` block.  `key in self.data` with `self.data = None` raises
`TypeError`. -/
def pyContains (data : Option Document) (key : String) : Except PyErr Bool :=
  match data with
  | none => Except.error (PyErr.typeError "argument of type NoneType is not iterable")
  | some d => Except.ok (lookupJson d key).isSome

/-- `self.data[key]`: raises `TypeError` on `None`, `KeyError` on a
missing key, and returns the stored value otherwise. -/
def pySubscript (data : Option Document) (key : String) : Except PyErr Json :=
  match data with
  | none => Except.error (PyErr.typeError "NoneType is not subscriptable")
  | some d =>
    match lookupJson d key with
    | some v => Except.ok v
    | none => Except.error (PyErr.keyError key)

/-- `datetime.datetime.strptime` passes a non-string argument straight to
a `TypeError`; a string is parsed. -/
def asStr : Json → Except PyErr String
  | Json.str s => Except.ok s
  | _ => Except.error (PyErr.typeError "strptime argument 1 must be str")

/-- The date part of a Python `datetime` object: only `year`, `month` and
`day` are read by the module (and `day` only to show it is ignored). -/
structure PyDateTime where
  year : Int
  month : Int
  day : Int
deriving DecidableEq

/-- Splitting a character list at every occurrence of a separator, the
meaning of the Python `str.split` with a one-character separator.  The
result is never empty; an input without the separator yields one group. -/
def splitOn (sep : Char) : List Char → List (List Char)
  | [] => [[]]
  | c :: rest =>
    match splitOn sep rest with
    | [] => [[c]]
    | g :: gs => if c = sep then [] :: g :: gs else (c :: g) :: gs

/-- The numeric value of a non-empty all-digit character list, `none`
otherwise: the digit parsing inside `strptime`. -/
def natOfDigitsAux (acc : Nat) : List Char → Option Nat
  | [] => some acc
  | c :: rest =>
    if c.isDigit then natOfDigitsAux (acc * 10 + (c.toNat - 48)) rest else none

/-- See `natOfDigitsAux`; the empty list is rejected. -/
def natOfDigits : List Char → Option Nat
  | [] => none
  | c :: rest => natOfDigitsAux 0 (c :: rest)

/-- Modelled from the Python standard library: `datetime.datetime.strptime`,
restricted to the format `%Y-%m-%d` that the specification exercises; any
other format string is rejected.  The day of month is range-checked only
against 1..31, not against the length of the month; no claim depends on
the rejected inputs, every theorem below is conditional on the outcome of
`strptime`. -/
def strptime (s date_format : String) : Except PyErr PyDateTime :=
  if date_format = "%Y-%m-%d" then
    match (splitOn '-' s.data).map natOfDigits with
    | [some y, some m, some d] =>
      if 1 ≤ y ∧ y ≤ 9999 ∧ 1 ≤ m ∧ m ≤ 12 ∧ 1 ≤ d ∧ d ≤ 31 then
        Except.ok ⟨Int.ofNat y, Int.ofNat m, Int.ofNat d⟩
      else
        Except.error (PyErr.valueError ("time data " ++ s ++ " does not match format " ++ date_format))
    | _ => Except.error (PyErr.valueError ("time data " ++ s ++ " does not match format " ++ date_format))
  else Except.error (PyErr.valueError ("format " ++ date_format ++ " is not modelled"))

deriving instance DecidableEq for Except

/-- The observable outcome of one `requests.get` call: either a response
with a status code and a parsed JSON body (discarded by the URL-validity
check), or a raised `requests` exception (connection error, timeout, too
many redirects, invalid JSON body) carrying a message. -/
inductive HttpOutcome where
  | response (status : Nat) (body : Document) : HttpOutcome
  | netError (msg : String) : HttpOutcome

/-- The message of the `requests.exceptions.HTTPError` raised by
`response.raise_for_status` for a status in `[400, 600)`; the reason
phrase is omitted, the status code and the requested URL are kept. -/
def raise_for_status_msg (status : Nat) (url : String) : String :=
  if status < 500 then toString status ++ " Client Error for url: " ++ url
  else toString status ++ " Server Error for url: " ++ url

/-- The request URL built by `_get_data`: `f"{url}{catalog_id}"` when the
base URL ends with a slash, `f"{url}/{catalog_id}"` otherwise.  The
Python test `url.endswith("/")` is expressed as the last character of the
base URL being the slash, which is the meaning of `endswith` for a
one-character suffix. -/
def buildUrl (url catalog_id : String) : String :=
  if url.data.getLast? = some '/' then url ++ catalog_id
  else url ++ "/" ++ catalog_id

/-- `CatalogAPI._get_data`: one GET against the built URL with the
configured timeout.  Every caught `requests` exception is re-raised as
`CriticalException`; `raise_for_status` turns a status in `[400, 600)`
into such an exception; `response.ok` (status below 400) returns the
parsed body; otherwise the method falls off the end of the `try` block
and returns Python `None`. -/
def get_data (http : String → Int → HttpOutcome) (url catalog_id : String)
    (timeout : Int) : Except PyErr (Option Document) :=
  match http (buildUrl url catalog_id) timeout with
  | HttpOutcome.netError e => Except.error (PyErr.critical e)
  | HttpOutcome.response status body =>
    if 400 ≤ status ∧ status < 600 then
      Except.error (PyErr.critical (raise_for_status_msg status (buildUrl url catalog_id)))
    else if status < 400 then Except.ok (some body)
    else Except.ok none

/-- The client state set up by `CatalogAPI.__init__`: the three
configuration fields and the fetched document. -/
structure CatalogAPI where
  url : String
  catalog_id : String
  timeout : Int
  data : Option Document

/-- `CatalogAPI.__init__`: stores the configuration and eagerly fetches
the document; a raise inside `_get_data` propagates, so no instance is
produced in that case. -/
def CatalogAPI.init (http : String → Int → HttpOutcome) (url catalog_id : String)
    (timeout : Int) : Except PyErr CatalogAPI :=
  match get_data http url catalog_id timeout with
  | Except.error e => Except.error e
  | Except.ok d => Except.ok { url := url, catalog_id := catalog_id, timeout := timeout, data := d }

/-- `check_key_exists`: `key in self.data and self.data[key]`.  Python
`and` returns its first operand when that operand is falsy and its second
operand otherwise, so the method returns the boolean `False` for a
missing key and the stored value itself for a present key.  The method
reads `self` and never writes it, hence the unchanged second component. -/
def CatalogAPI.check_key_exists (self : CatalogAPI) (key : String) :
    Except PyErr Json × CatalogAPI :=
  (match pyContains self.data key with
   | Except.error e => Except.error e
   | Except.ok c =>
     if c then pySubscript self.data key else Except.ok (Json.bool false),
   self)

/-- `check_url_valid`: one GET against the value stored at `key` (the
lookup `self.data[key]` is outside the `try`, so its `KeyError`
propagates untouched).  A caught `requests` exception — which
`raise_for_status` produces exactly for statuses in `[400, 600)` — is
re-raised as `CriticalException` with the message
`f"URL {self.data[key]} not valid: {str(e)}"`; `response.ok` (status
below 400) returns `True`; otherwise the method falls off the end and
returns Python `None`.  `self` is never written. -/
def CatalogAPI.check_url_valid (self : CatalogAPI) (http : Json → HttpOutcome)
    (key : String) : Except PyErr Json × CatalogAPI :=
  (match pySubscript self.data key with
   | Except.error e => Except.error e
   | Except.ok v =>
     match http v with
     | HttpOutcome.netError e =>
       Except.error (PyErr.critical ("URL " ++ pyStr v ++ " not valid: " ++ e))
     | HttpOutcome.response status _ =>
       if 400 ≤ status ∧ status < 600 then
         Except.error (PyErr.critical
           ("URL " ++ pyStr v ++ " not valid: " ++ raise_for_status_msg status (pyStr v)))
       else if status < 400 then Except.ok (Json.bool true)
       else Except.ok Json.null,
   self)

/-- The inner helper `age_month` of `check_date_age`:
`(today.year - d.year) * 12 + today.month - d.month`, with `today`
passed explicitly in place of the `get_today()` clock read. -/
def age_month (today d : PyDateTime) : Int :=
  (today.year - d.year) * 12 + today.month - d.month

/-- `check_date_age`: parses `self.data[key]` with the given format and
returns the month difference to now; lookup, type and parse errors
propagate unguarded.  `self` is never written. -/
def CatalogAPI.check_date_age (self : CatalogAPI) (key date_format : String)
    (today : PyDateTime) : Except PyErr Int × CatalogAPI :=
  (match pySubscript self.data key with
   | Except.error e => Except.error e
   | Except.ok v =>
     match asStr v with
     | Except.error e => Except.error e
     | Except.ok s =>
       match strptime s date_format with
       | Except.error e => Except.error e
       | Except.ok d => Except.ok (age_month today d),
   self)

/-- Claim C1: for every document and key, `check_key_exists` succeeds with
a result whose truthiness is `true` exactly when the key is present with a
truthy value; for an absent key the result is the boolean `false`, and for
a present falsy value the result is falsy.  (Read at the level of Python
truthiness: the raw returned value is the subject of claim C9.) -/
theorem check_key_exists_truthiness (self : CatalogAPI) (doc : Document) (key : String)
    (h : self.data = some doc) :
    ∃ r, (self.check_key_exists key).1 = Except.ok r ∧
      ((truthy r = true) ↔ ∃ v, lookupJson doc key = some v ∧ truthy v = true) ∧
      (lookupJson doc key = none → r = Json.bool false) ∧
      (∀ v, lookupJson doc key = some v → truthy v = false → truthy r = false) := by
  cases hl : lookupJson doc key with
  | none =>
    refine ⟨Json.bool false, ?_, ?_, ?_, ?_⟩
    · simp [CatalogAPI.check_key_exists, pyContains, pySubscript, h, hl]
    · simp [truthy, hl]
    · intro _; rfl
    · intro v hv; simp [hl] at hv
  | some v =>
    refine ⟨v, ?_, ?_, ?_, ?_⟩
    · simp [CatalogAPI.check_key_exists, pyContains, pySubscript, h, hl]
    · constructor
      · intro ht; exact ⟨v, rfl, ht⟩
      · rintro ⟨w, hw, hwt⟩; cases hw; exact hwt
    · intro hn; simp [hl] at hn
    · intro w hw hwf; cases hw; exact hwf

/-- Witness for claim C1 at a concrete client holding one truthy and one
falsy binding. -/
theorem check_key_exists_truthiness_witness :
    ∃ r, (CatalogAPI.check_key_exists
        ⟨"https://example.org", "cat", 30, some [("present", Json.str "value"), ("empty", Json.str "")]⟩
        "present").1 = Except.ok r ∧
      ((truthy r = true) ↔ ∃ v,
        lookupJson [("present", Json.str "value"), ("empty", Json.str "")] "present" = some v ∧
          truthy v = true) ∧
      (lookupJson [("present", Json.str "value"), ("empty", Json.str "")] "present" = none →
        r = Json.bool false) ∧
      (∀ v, lookupJson [("present", Json.str "value"), ("empty", Json.str "")] "present" = some v →
        truthy v = false → truthy r = false) :=
  check_key_exists_truthiness
    ⟨"https://example.org", "cat", 30, some [("present", Json.str "value"), ("empty", Json.str "")]⟩
    [("present", Json.str "value"), ("empty", Json.str "")] "present" rfl

/-- Counterexample to claim C9 as stated: the claim says the result of
`check_key_exists` is a boolean only when the key is absent or the stored
value is falsy.  For the document `{"k": True}` the key is present and the
stored value is truthy, yet the result is the boolean `True` (because the
method returns the stored value itself, which here happens to be a
boolean). -/
theorem check_key_exists_boolean_counterexample :
    (CatalogAPI.check_key_exists ⟨"https://example.org", "cat", 30,
        some [("k", Json.bool true)]⟩ "k").1 = Except.ok (Json.bool true) ∧
      Json.isBool (Json.bool true) = true ∧
      lookupJson [("k", Json.bool true)] "k" = some (Json.bool true) ∧
      truthy (Json.bool true) = true :=
  ⟨rfl, rfl, rfl, rfl⟩

/-- Claim C9 (amended): `check_key_exists` never raises; when the key is
present it returns the stored value itself (truthy or not) rather than a
strict boolean; hence its result is a boolean only when the key is absent
or the stored value is itself a boolean. -/
theorem check_key_exists_no_raise_raw_value (self : CatalogAPI) (doc : Document)
    (key : String) (h : self.data = some doc) :
    (∃ r, (self.check_key_exists key).1 = Except.ok r) ∧
      (∀ v, lookupJson doc key = some v → (self.check_key_exists key).1 = Except.ok v) ∧
      (∀ b, (self.check_key_exists key).1 = Except.ok (Json.bool b) →
        lookupJson doc key = none ∨ lookupJson doc key = some (Json.bool b)) := by
  cases hl : lookupJson doc key with
  | none =>
    refine ⟨⟨Json.bool false, ?_⟩, ?_, ?_⟩
    · simp [CatalogAPI.check_key_exists, pyContains, pySubscript, h, hl]
    · intro v hv; simp at hv
    · intro b _; exact Or.inl rfl
  | some v =>
    have hr : (self.check_key_exists key).1 = Except.ok v := by
      simp [CatalogAPI.check_key_exists, pyContains, pySubscript, h, hl]
    refine ⟨⟨v, hr⟩, ?_, ?_⟩
    · intro w hw; cases hw; exact hr
    · intro b hb; rw [hr] at hb; cases hb; exact Or.inr rfl

/-- Witness for the amended claim C9 at a concrete client. -/
theorem check_key_exists_no_raise_raw_value_witness :
    (∃ r, (CatalogAPI.check_key_exists ⟨"https://example.org", "cat", 30,
        some [("k", Json.num 7)]⟩ "k").1 = Except.ok r) ∧
      (∀ v, lookupJson [("k", Json.num 7)] "k" = some v →
        (CatalogAPI.check_key_exists ⟨"https://example.org", "cat", 30,
          some [("k", Json.num 7)]⟩ "k").1 = Except.ok v) ∧
      (∀ b, (CatalogAPI.check_key_exists ⟨"https://example.org", "cat", 30,
          some [("k", Json.num 7)]⟩ "k").1 = Except.ok (Json.bool b) →
        lookupJson [("k", Json.num 7)] "k" = none ∨
          lookupJson [("k", Json.num 7)] "k" = some (Json.bool b)) :=
  check_key_exists_no_raise_raw_value
    ⟨"https://example.org", "cat", 30, some [("k", Json.num 7)]⟩ [("k", Json.num 7)] "k" rfl

/-- Claim C2: when the value at `key` is a string that `strptime` parses
with the given format, `check_date_age` returns exactly
`(today.year - d.year) * 12 + today.month - d.month`; the day of month of
both dates is ignored. -/
theorem check_date_age_formula (self : CatalogAPI) (doc : Document)
    (key date_format s : String) (d today : PyDateTime)
    (h : self.data = some doc)
    (hs : lookupJson doc key = some (Json.str s))
    (hp : strptime s date_format = Except.ok d) :
    (self.check_date_age key date_format today).1 =
      Except.ok ((today.year - d.year) * 12 + today.month - d.month) := by
  simp [CatalogAPI.check_date_age, pySubscript, h, hs, asStr, hp, age_month]

/-- Witness for claim C2: the example of the specification, stored date
2023-01-31 against now 2023-02-01, gives 1 despite only one elapsed day. -/
theorem check_date_age_formula_witness :
    (CatalogAPI.check_date_age ⟨"https://example.org", "cat", 30,
        some [("released", Json.str "2023-01-31")]⟩
      "released" "%Y-%m-%d" ⟨2023, 2, 1⟩).1 = Except.ok 1 := by
  have h := check_date_age_formula
    ⟨"https://example.org", "cat", 30, some [("released", Json.str "2023-01-31")]⟩
    [("released", Json.str "2023-01-31")] "released" "%Y-%m-%d" "2023-01-31"
    ⟨2023, 1, 31⟩ ⟨2023, 2, 1⟩ rfl rfl (by decide)
  simpa using h

/-- Claim C10: for a stored date lying in a calendar month strictly after
the month of `today`, `check_date_age` returns a strictly negative
integer; the month formula is not clamped at zero for future dates. -/
theorem check_date_age_future_negative (self : CatalogAPI) (doc : Document)
    (key date_format s : String) (d today : PyDateTime)
    (h : self.data = some doc)
    (hs : lookupJson doc key = some (Json.str s))
    (hp : strptime s date_format = Except.ok d)
    (hm1 : 1 ≤ today.month) (hm2 : today.month ≤ 12)
    (hm3 : 1 ≤ d.month) (hm4 : d.month ≤ 12)
    (hfut : today.year < d.year ∨ (today.year = d.year ∧ today.month < d.month)) :
    ∃ n, (self.check_date_age key date_format today).1 = Except.ok n ∧ n < 0 := by
  refine ⟨(today.year - d.year) * 12 + today.month - d.month,
    check_date_age_formula self doc key date_format s d today h hs hp, ?_⟩
  rcases hfut with hy | ⟨hy, hm⟩
  · have h12 : (today.year - d.year) * 12 ≤ -12 := by nlinarith
    omega
  · rw [hy]
    omega

/-- Witness for claim C10: a date in March 2024 checked in February 2024
yields the negative age -1. -/
theorem check_date_age_future_negative_witness :
    ∃ n, (CatalogAPI.check_date_age ⟨"https://example.org", "cat", 30,
        some [("released", Json.str "2024-03-05")]⟩
      "released" "%Y-%m-%d" ⟨2024, 2, 20⟩).1 = Except.ok n ∧ n < 0 :=
  check_date_age_future_negative
    ⟨"https://example.org", "cat", 30, some [("released", Json.str "2024-03-05")]⟩
    [("released", Json.str "2024-03-05")] "released" "%Y-%m-%d" "2024-03-05"
    ⟨2024, 3, 5⟩ ⟨2024, 2, 20⟩ rfl rfl (by decide)
    (by decide) (by decide) (by decide) (by decide)
    (Or.inr ⟨rfl, by decide⟩)

/-- Claim C7: `check_date_age` raises — and returns no integer — whenever
the requested key is absent from the document (the unguarded `self.data[key]`
raises `KeyError`) or the value at the key is a string the given format
does not parse (`strptime` raises `ValueError`). -/
theorem check_date_age_error (self : CatalogAPI) (doc : Document)
    (key date_format : String) (today : PyDateTime)
    (h : self.data = some doc)
    (hbad : lookupJson doc key = none ∨
      ∃ s e, lookupJson doc key = some (Json.str s) ∧ strptime s date_format = Except.error e) :
    ∃ e, (self.check_date_age key date_format today).1 = Except.error e ∧
      ∀ n, (self.check_date_age key date_format today).1 ≠ Except.ok n := by
  rcases hbad with hl | ⟨s, e, hs, hp⟩
  · refine ⟨PyErr.keyError key, ?_, ?_⟩
    · simp [CatalogAPI.check_date_age, pySubscript, h, hl]
    · intro n; simp [CatalogAPI.check_date_age, pySubscript, h, hl]
  · refine ⟨e, ?_, ?_⟩
    · simp [CatalogAPI.check_date_age, pySubscript, h, hs, asStr, hp]
    · intro n; simp [CatalogAPI.check_date_age, pySubscript, h, hs, asStr, hp]

/-- Witness for claim C7: a key that is absent, and a key whose value does
not match the format, both raise. -/
theorem check_date_age_error_witness :
    ∃ e, (CatalogAPI.check_date_age ⟨"https://example.org", "cat", 30,
        some [("released", Json.str "not-a-date")]⟩
      "missing" "%Y-%m-%d" ⟨2024, 2, 20⟩).1 = Except.error e ∧
      ∀ n, (CatalogAPI.check_date_age ⟨"https://example.org", "cat", 30,
          some [("released", Json.str "not-a-date")]⟩
        "missing" "%Y-%m-%d" ⟨2024, 2, 20⟩).1 ≠ Except.ok n :=
  check_date_age_error
    ⟨"https://example.org", "cat", 30, some [("released", Json.str "not-a-date")]⟩
    [("released", Json.str "not-a-date")] "missing" "%Y-%m-%d" ⟨2024, 2, 20⟩
    rfl (Or.inl rfl)

/-- Counterexample to claim C3 as stated: the claim counts every non-2xx
status as a failure of the GET that must raise.  For a response with the
non-2xx status 304 (a redirect-class status that `requests` hands back to
the caller), `raise_for_status` does not raise — it raises exactly for
statuses in `[400, 600)` — and `response.ok` (status below 400) holds, so
`check_url_valid` returns `True` instead of raising. -/
theorem check_url_valid_304_counterexample :
    (CatalogAPI.check_url_valid ⟨"https://example.org", "cat", 30,
        some [("k", Json.str "https://target.example")]⟩
      (fun _ => HttpOutcome.response 304 []) "k").1 = Except.ok (Json.bool true) := rfl

/-- Claim C3 (amended): when the GET against the value stored at a present
key fails with a network error or timeout, or returns a 4xx or 5xx status,
`check_url_valid` raises `CriticalException` with a message naming the
offending URL and the underlying cause; it does not return a boolean. -/
theorem check_url_valid_failure_raises (self : CatalogAPI) (doc : Document)
    (key : String) (v : Json) (http : Json → HttpOutcome)
    (h : self.data = some doc) (hv : lookupJson doc key = some v)
    (hbad : (∃ e, http v = HttpOutcome.netError e) ∨
      (∃ st body, http v = HttpOutcome.response st body ∧ 400 ≤ st ∧ st < 600)) :
    (∃ cause, (self.check_url_valid http key).1 =
        Except.error (PyErr.critical ("URL " ++ pyStr v ++ " not valid: " ++ cause))) ∧
      ∀ j, (self.check_url_valid http key).1 ≠ Except.ok j := by
  rcases hbad with ⟨e, he⟩ | ⟨st, body, hr, h4, h6⟩
  · constructor
    · exact ⟨e, by simp [CatalogAPI.check_url_valid, pySubscript, h, hv, he]⟩
    · intro j; simp [CatalogAPI.check_url_valid, pySubscript, h, hv, he]
  · have hred : (self.check_url_valid http key).1 =
        Except.error (PyErr.critical
          ("URL " ++ pyStr v ++ " not valid: " ++ raise_for_status_msg st (pyStr v))) := by
      simp [CatalogAPI.check_url_valid, pySubscript, h, hv, hr, h4, h6]
    constructor
    · exact ⟨raise_for_status_msg st (pyStr v), hred⟩
    · intro j; rw [hred]; simp

/-- Witness for the amended claim C3: a URL answering HTTP 500 makes
`check_url_valid` raise `CriticalException` naming that URL. -/
theorem check_url_valid_failure_raises_witness :
    (∃ cause, (CatalogAPI.check_url_valid ⟨"https://example.org", "cat", 30,
          some [("u", Json.str "https://broken.example")]⟩
        (fun _ => HttpOutcome.response 500 []) "u").1 =
        Except.error (PyErr.critical
          ("URL " ++ pyStr (Json.str "https://broken.example") ++ " not valid: " ++ cause))) ∧
      ∀ j, (CatalogAPI.check_url_valid ⟨"https://example.org", "cat", 30,
          some [("u", Json.str "https://broken.example")]⟩
        (fun _ => HttpOutcome.response 500 []) "u").1 ≠ Except.ok j :=
  check_url_valid_failure_raises
    ⟨"https://example.org", "cat", 30, some [("u", Json.str "https://broken.example")]⟩
    [("u", Json.str "https://broken.example")] "u" (Json.str "https://broken.example")
    (fun _ => HttpOutcome.response 500 []) rfl rfl
    (Or.inr ⟨500, [], rfl, by decide, by decide⟩)

/-- Counterexample to claim C5 as stated: the claim allows `true` only
for a 2xx status.  A response with status 304 — not a success status —
also makes `check_url_valid` return `True`, because `response.ok` is
`status < 400`, not `status` in the 2xx range. -/
theorem check_url_valid_true_counterexample :
    (CatalogAPI.check_url_valid ⟨"https://example.org", "cat", 30,
        some [("u", Json.str "https://cached.example")]⟩
      (fun _ => HttpOutcome.response 304 []) "u").1 = Except.ok (Json.bool true) ∧
      ¬(200 ≤ 304 ∧ 304 ≤ 299) :=
  ⟨rfl, by decide⟩

/-- Claim C5 (amended): for a present key whose GET yields a response,
`check_url_valid` returns `True` exactly when the status is below 400
(success or an unfollowed redirect status); in particular HTTP 200 yields
`True`. -/
theorem check_url_valid_true_iff (self : CatalogAPI) (doc : Document)
    (key : String) (v : Json) (http : Json → HttpOutcome) (st : Nat) (body : Document)
    (h : self.data = some doc) (hv : lookupJson doc key = some v)
    (hr : http v = HttpOutcome.response st body) :
    (self.check_url_valid http key).1 = Except.ok (Json.bool true) ↔ st < 400 := by
  by_cases h4 : 400 ≤ st ∧ st < 600
  · have : (self.check_url_valid http key).1 =
        Except.error (PyErr.critical
          ("URL " ++ pyStr v ++ " not valid: " ++ raise_for_status_msg st (pyStr v))) := by
      simp [CatalogAPI.check_url_valid, pySubscript, h, hv, hr, h4.1, h4.2]
    rw [this]
    constructor
    · intro hc; exact absurd hc (by simp)
    · intro hlt; omega
  · by_cases hlt : st < 400
    · have : (self.check_url_valid http key).1 = Except.ok (Json.bool true) := by
        simp [CatalogAPI.check_url_valid, pySubscript, h, hv, hr, h4, hlt]
      rw [this]
      simp [hlt]
    · have hge : ¬(400 ≤ st ∧ st < 600) := h4
      have : (self.check_url_valid http key).1 = Except.ok Json.null := by
        simp [CatalogAPI.check_url_valid, pySubscript, h, hv, hr, h4, hlt]
      rw [this]
      constructor
      · intro hc; exact absurd hc (by simp)
      · intro hc; exact absurd hc hlt

/-- Witness for the amended claim C5: a URL answering HTTP 200 makes
`check_url_valid` return `True`. -/
theorem check_url_valid_true_iff_witness :
    ((CatalogAPI.check_url_valid ⟨"https://example.org", "cat", 30,
        some [("u", Json.str "https://ok.example")]⟩
      (fun _ => HttpOutcome.response 200 []) "u").1 = Except.ok (Json.bool true) ↔ 200 < 400) ∧
      (CatalogAPI.check_url_valid ⟨"https://example.org", "cat", 30,
          some [("u", Json.str "https://ok.example")]⟩
        (fun _ => HttpOutcome.response 200 []) "u").1 = Except.ok (Json.bool true) :=
  have hiff := check_url_valid_true_iff
    ⟨"https://example.org", "cat", 30, some [("u", Json.str "https://ok.example")]⟩
    [("u", Json.str "https://ok.example")] "u" (Json.str "https://ok.example")
    (fun _ => HttpOutcome.response 200 []) 200 [] rfl rfl rfl
  ⟨hiff, hiff.mpr (by decide)⟩

/-- Counterexample to claim C4 as stated: the claim counts every non-2xx
status as a fetch failure that must abort construction.  Against an
endpoint answering the non-2xx status 304, `raise_for_status` does not
raise and `response.ok` (status below 400) holds, so construction
succeeds and stores the response body. -/
theorem init_304_counterexample :
    CatalogAPI.init (fun _ _ => HttpOutcome.response 304 [("k", Json.str "v")])
        "https://example.org" "cat1" 30 =
      Except.ok ⟨"https://example.org", "cat1", 30, some [("k", Json.str "v")]⟩ := rfl

/-- Claim C4 (amended): when the initial catalog fetch fails with a
network error, timeout or excessive redirects, or returns a 4xx or 5xx
status such as HTTP 404, construction raises `CriticalException` carrying
the underlying cause, and no client instance is produced. -/
theorem init_failure_raises (http : String → Int → HttpOutcome)
    (url catalog_id : String) (timeout : Int)
    (hbad : (∃ e, http (buildUrl url catalog_id) timeout = HttpOutcome.netError e) ∨
      (∃ st body, http (buildUrl url catalog_id) timeout = HttpOutcome.response st body ∧
        400 ≤ st ∧ st < 600)) :
    (∃ msg, CatalogAPI.init http url catalog_id timeout =
        Except.error (PyErr.critical msg) ∧
        ((∃ e, http (buildUrl url catalog_id) timeout = HttpOutcome.netError e ∧ msg = e) ∨
          (∃ st body, http (buildUrl url catalog_id) timeout = HttpOutcome.response st body ∧
            msg = raise_for_status_msg st (buildUrl url catalog_id)))) ∧
      ∀ api, CatalogAPI.init http url catalog_id timeout ≠ Except.ok api := by
  rcases hbad with ⟨e, he⟩ | ⟨st, body, hr, h4, h6⟩
  · have hinit : CatalogAPI.init http url catalog_id timeout =
        Except.error (PyErr.critical e) := by
      simp [CatalogAPI.init, get_data, he]
    refine ⟨⟨e, hinit, Or.inl ⟨e, he, rfl⟩⟩, ?_⟩
    intro api; rw [hinit]; simp
  · have hinit : CatalogAPI.init http url catalog_id timeout =
        Except.error (PyErr.critical (raise_for_status_msg st (buildUrl url catalog_id))) := by
      simp [CatalogAPI.init, get_data, hr, h4, h6]
    refine ⟨⟨raise_for_status_msg st (buildUrl url catalog_id), hinit,
      Or.inr ⟨st, body, hr, rfl⟩⟩, ?_⟩
    intro api; rw [hinit]; simp

/-- Witness for the amended claim C4: construction against an endpoint
answering HTTP 404 fails and yields no client instance. -/
theorem init_failure_raises_witness :
    (∃ msg, CatalogAPI.init (fun _ _ => HttpOutcome.response 404 [])
        "https://example.org" "cat1" 30 = Except.error (PyErr.critical msg) ∧
        ((∃ e, (fun (_ : String) (_ : Int) => HttpOutcome.response 404 ([] : Document))
            (buildUrl "https://example.org" "cat1") 30 = HttpOutcome.netError e ∧ msg = e) ∨
          (∃ st body, (fun (_ : String) (_ : Int) => HttpOutcome.response 404 ([] : Document))
              (buildUrl "https://example.org" "cat1") 30 = HttpOutcome.response st body ∧
            msg = raise_for_status_msg st (buildUrl "https://example.org" "cat1")))) ∧
      ∀ api, CatalogAPI.init (fun _ _ => HttpOutcome.response 404 [])
        "https://example.org" "cat1" 30 ≠ Except.ok api :=
  init_failure_raises (fun _ _ => HttpOutcome.response 404 []) "https://example.org" "cat1" 30
    (Or.inr ⟨404, [], rfl, by decide, by decide⟩)

/-- Claim C6: for every base URL — given in its slashless form `b` and in
its trailing-slash form `b ++ "/"` — and every catalog identifier, the
fetch URL built at construction is `b ++ "/" ++ id`: exactly one
separating slash at the join point, never two, never zero. -/
theorem buildUrl_single_slash (b catalog_id : String)
    (h : b.data.getLast? ≠ some '/') :
    buildUrl b catalog_id = b ++ "/" ++ catalog_id ∧
      buildUrl (b ++ "/") catalog_id = b ++ "/" ++ catalog_id := by
  constructor
  · simp [buildUrl, h]
  · have hend : (b ++ "/").data.getLast? = some '/' := by
      rw [String.data_append]
      exact List.getLast?_concat _
    simp [buildUrl, hend]

/-- Witness for claim C6 at a concrete base URL and identifier. -/
theorem buildUrl_single_slash_witness :
    buildUrl "https://example.org" "cat1" = "https://example.org" ++ "/" ++ "cat1" ∧
      buildUrl ("https://example.org" ++ "/") "cat1" = "https://example.org" ++ "/" ++ "cat1" :=
  buildUrl_single_slash "https://example.org" "cat1" (by decide)

/-- Claim C8: a successfully constructed client is never mutated: each of
the three query operations hands back the client state exactly as
construction produced it, and construction stored the given
configuration. -/
theorem client_never_mutated (http : String → Int → HttpOutcome)
    (httpv : Json → HttpOutcome) (url catalog_id : String) (timeout : Int)
    (self : CatalogAPI) (k1 k2 k3 date_format : String) (today : PyDateTime)
    (h : CatalogAPI.init http url catalog_id timeout = Except.ok self) :
    (self.check_key_exists k1).2 = self ∧
      (self.check_url_valid httpv k2).2 = self ∧
      (self.check_date_age k3 date_format today).2 = self ∧
      self.url = url ∧ self.catalog_id = catalog_id ∧ self.timeout = timeout := by
  refine ⟨rfl, rfl, rfl, ?_⟩
  cases hg : get_data http url catalog_id timeout with
  | error e => rw [CatalogAPI.init, hg] at h; cases h
  | ok d =>
    rw [CatalogAPI.init, hg] at h
    cases h
    exact ⟨rfl, rfl, rfl⟩

/-- Witness for claim C8 at a concretely constructed client. -/
theorem client_never_mutated_witness :
    (CatalogAPI.check_key_exists ⟨"https://example.org", "cat1", 30,
        some [("k", Json.str "v")]⟩ "k").2 =
        ⟨"https://example.org", "cat1", 30, some [("k", Json.str "v")]⟩ ∧
      (CatalogAPI.check_url_valid ⟨"https://example.org", "cat1", 30,
          some [("k", Json.str "v")]⟩ (fun _ => HttpOutcome.response 200 []) "k").2 =
        ⟨"https://example.org", "cat1", 30, some [("k", Json.str "v")]⟩ ∧
      (CatalogAPI.check_date_age ⟨"https://example.org", "cat1", 30,
          some [("k", Json.str "v")]⟩ "k" "%Y-%m-%d" ⟨2024, 2, 20⟩).2 =
        ⟨"https://example.org", "cat1", 30, some [("k", Json.str "v")]⟩ ∧
      (⟨"https://example.org", "cat1", 30, some [("k", Json.str "v")]⟩ : CatalogAPI).url =
        "https://example.org" ∧
      (⟨"https://example.org", "cat1", 30, some [("k", Json.str "v")]⟩ : CatalogAPI).catalog_id =
        "cat1" ∧
      (⟨"https://example.org", "cat1", 30, some [("k", Json.str "v")]⟩ : CatalogAPI).timeout = 30 :=
  client_never_mutated (fun _ _ => HttpOutcome.response 200 [("k", Json.str "v")])
    (fun _ => HttpOutcome.response 200 []) "https://example.org" "cat1" 30
    ⟨"https://example.org", "cat1", 30, some [("k", Json.str "v")]⟩
    "k" "k" "k" "%Y-%m-%d" ⟨2024, 2, 20⟩ rfl
